import Mathlib

/-!
Shallow embedding of the AMQP helper layer (package `queue` plus its small
configuration model).  The message-envelope factory (`CreateMessage`,
`GetNextMessage`, `GetKickbackMessage`), the queue-uniqueness validator
(`AssertUniqueQueues`) and the topology bootstrapper (`TryCreateQueues`,
`BindQueuesToExchange`) are translated from `utility.go`.

Modelling conventions:
* Go `int64` values are `Int`s; where the source performs 64-bit arithmetic
  the result is normalised with `wrap64` (Go defines signed overflow as
  two's-complement wrap-around).
* `map[string]interface{}` (amqp.Table) is an association list of
  `String × HVal`; `HVal` is a tagged value mirroring `interface{}` contents,
  and the failed type assertion `.(int64)` is a run-time panic, modelled by
  an `Option.none` result.
* A nil Go map is `Option.none`; the source's `pub.Headers = msg.Headers`
  aliases the source map, so the factory functions additionally return the
  final contents of the source delivery's header map (`srcHeaders`).
* `json.Marshal` is an external call, passed in as
  `marshal : β → Except String (List Nat)` (bytes are `List Nat`).
* The goroutine fan-out of the bootstrapper is modelled by the list of
  operations launched and a drain loop over an arbitrary arrival order
  (any permutation of the operations' results).
-/

namespace Amqp

/-- A value stored in an AMQP header table (Go `interface{}`). -/
inductive HVal where
  | i64 (v : Int)
  | i32 (v : Int)
  | str (s : String)
  | boolean (b : Bool)
deriving DecidableEq

/-- Whether a header value is a Go `int64` (the only type the retry-count
type assertion accepts). -/
def HVal.isI64 : HVal → Bool
  | .i64 _ => true
  | _ => false

/-- An AMQP header table (Go `amqp.Table`, a `map[string]interface{}`).
Keys are unique; order is irrelevant to every observation made here. -/
abbrev Table := List (String × HVal)

/-- Map lookup. -/
def hlookup : Table → String → Option HVal
  | [], _ => none
  | (k', v') :: rest, k => if k' = k then some v' else hlookup rest k

/-- Map assignment `m[k] = v` (replace if present, insert otherwise). -/
def hset : Table → String → HVal → Table
  | [], k, v => [(k, v)]
  | (k', v') :: rest, k, v =>
      if k' = k then (k, v) :: rest else (k', v') :: hset rest k v

/-- Two's-complement wrap-around into the `int64` range: Go's semantics for
overflowing signed arithmetic. -/
def wrap64 (x : Int) : Int :=
  (x + 9223372036854775808) % 18446744073709551616 - 9223372036854775808

/-- `RetryCountHeader` is the header for the retry count of the amqp message. -/
def RetryCountHeader : String := "retryCount"

/-- The fields of `amqp.Delivery` read by the factory.  `Headers = none`
models a nil Go map. -/
structure Delivery where
  Headers : Option Table
  ContentType : String
  ContentEncoding : String
  DeliveryMode : Nat
  Priority : Nat
  CorrelationId : String
  ReplyTo : String
  Expiration : String
  MessageId : String
  Timestamp : Int
  Typ : String
  Body : List Nat
deriving DecidableEq

/-- The fields of `amqp.Publishing` written by the factory. -/
structure Publishing where
  Headers : Option Table
  ContentType : String
  ContentEncoding : String
  DeliveryMode : Nat
  Priority : Nat
  CorrelationId : String
  ReplyTo : String
  Expiration : String
  MessageId : String
  Timestamp : Int
  Typ : String
  Body : List Nat
deriving DecidableEq

/-- The zero value `amqp.Publishing{}` (nil header map, zero fields). -/
def emptyPublishing : Publishing :=
  { Headers := none, ContentType := "", ContentEncoding := "", DeliveryMode := 0,
    Priority := 0, CorrelationId := "", ReplyTo := "", Expiration := "",
    MessageId := "", Timestamp := 0, Typ := "", Body := [] }

/-- The error message of `errors.New("too many retries")`. -/
def tooManyRetries : String := "too many retries"

/-- `CreateMessage` creates a message from the given body; translated from
`utility.go`.  `marshal` stands for the external `json.Marshal`.  The Go
return pair `(amqp.Publishing, error)` is `(Publishing, Option String)`. -/
def CreateMessage {β : Type} (marshal : β → Except String (List Nat)) (body : β) :
    Publishing × Option String :=
  match marshal body with
  | .error e => (emptyPublishing, some e)
  | .ok rawBody =>
      ({ emptyPublishing with
          Headers := some [(RetryCountHeader, HVal.i64 0)],
          Body := rawBody },
       none)

/-- What a call of `GetNextMessage` returns: the Go pair plus the final state
of the source delivery's (possibly aliased and mutated) header map. -/
structure NextReturn where
  pub : Publishing
  err : Option String
  srcHeaders : Option Table
deriving DecidableEq

/-- `GetNextMessage` is similar to `GetKickbackMessage` but takes in a new
body, and does not increment the retry count; translated from `utility.go`.
`pub.Headers = msg.Headers` aliases the source map when it is non-nil, so
the write `pub.Headers[RetryCountHeader] = int64(0)` is visible through
`srcHeaders`. -/
def GetNextMessage {β : Type} (marshal : β → Except String (List Nat))
    (msg : Delivery) (body : β) : NextReturn :=
  match marshal body with
  | .error e => { pub := emptyPublishing, err := some e, srcHeaders := msg.Headers }
  | .ok rawBody =>
      let h0 : Table := msg.Headers.getD []
      let h1 : Table := hset h0 RetryCountHeader (HVal.i64 0)
      { pub :=
          { Headers := some h1,
            ContentType := msg.ContentType,
            ContentEncoding := msg.ContentEncoding,
            DeliveryMode := msg.DeliveryMode,
            Priority := 0, CorrelationId := "", ReplyTo := "", Expiration := "",
            MessageId := "", Timestamp := 0,
            Typ := msg.Typ,
            Body := rawBody },
        err := none,
        srcHeaders := msg.Headers.map (fun _ => h1) }

/-- What a call of `GetKickbackMessage` returns when it does not panic: the
Go pair plus the final state of the source delivery's header map. -/
structure KickReturn where
  pub : Publishing
  err : Option String
  srcHeaders : Option Table
deriving DecidableEq

/-- The header table `GetKickbackMessage` reads its count from (`pub.Headers`
in the source, right before the comparison): the source's table (an empty one
for a nil map) with the retry-count key set to `int64 0` when it was absent. -/
def kickBase (msg : Delivery) : Table :=
  if (hlookup (msg.Headers.getD []) RetryCountHeader).isNone
  then hset (msg.Headers.getD []) RetryCountHeader (HVal.i64 0)
  else msg.Headers.getD []

/-- `GetKickbackMessage` takes the delivery and creates a message from it for
requeuing on non-fatal error; translated from `utility.go`.  `none` models
the run-time panic of the type assertion `pub.Headers[RetryCountHeader].(int64)`
on a non-`int64` value.  As in `GetNextMessage`, the envelope's header map
aliases the source's when that one is non-nil, so the final map contents are
reported through `srcHeaders`. -/
def GetKickbackMessage (maxRetries : Int) (msg : Delivery) : Option KickReturn :=
  match hlookup (kickBase msg) RetryCountHeader with
  | some (HVal.i64 c) =>
      if c > maxRetries then
        some { pub := emptyPublishing, err := some tooManyRetries,
               srcHeaders := msg.Headers.map (fun _ => kickBase msg) }
      else
        some { pub :=
                { Headers := some (hset (kickBase msg) RetryCountHeader
                    (HVal.i64 (wrap64 (c + 1)))),
                  ContentType := msg.ContentType,
                  ContentEncoding := msg.ContentEncoding,
                  DeliveryMode := msg.DeliveryMode,
                  Priority := msg.Priority,
                  CorrelationId := msg.CorrelationId,
                  ReplyTo := msg.ReplyTo,
                  Expiration := msg.Expiration,
                  MessageId := msg.MessageId,
                  Timestamp := msg.Timestamp,
                  Typ := msg.Typ,
                  Body := msg.Body },
               err := none,
               srcHeaders := msg.Headers.map (fun _ =>
                 hset (kickBase msg) RetryCountHeader
                   (HVal.i64 (wrap64 (c + 1)))) }
  | some _ => none
  | none => none

/-- The retry count `GetKickbackMessage` reads before incrementing: 0 when
the header map is nil or lacks the key, the stored `int64` when it holds one,
and undefined (`none`, the panic case) otherwise. -/
def preCount64 (msg : Delivery) : Option Int :=
  match msg.Headers with
  | none => some 0
  | some h =>
      match hlookup h RetryCountHeader with
      | none => some 0
      | some (HVal.i64 c) => some c
      | some _ => none

/-- Re-delivery of a published envelope by the broker: the next inbound
delivery carries the published headers, metadata and body. -/
def redeliver (p : Publishing) : Delivery :=
  { Headers := p.Headers, ContentType := p.ContentType,
    ContentEncoding := p.ContentEncoding, DeliveryMode := p.DeliveryMode,
    Priority := p.Priority, CorrelationId := p.CorrelationId,
    ReplyTo := p.ReplyTo, Expiration := p.Expiration, MessageId := p.MessageId,
    Timestamp := p.Timestamp, Typ := p.Typ, Body := p.Body }

/-- Iterating `GetKickbackMessage` on its own output: `iterKick m d n` is the
result of call number `n + 1`, each successful envelope being redelivered to
the next call; a failure or panic is final. -/
def iterKick (maxRetries : Int) (d : Delivery) : Nat → Option KickReturn
  | 0 => GetKickbackMessage maxRetries d
  | n + 1 =>
      match iterKick maxRetries d n with
      | some r => if r.err = none then GetKickbackMessage maxRetries (redeliver r.pub) else some r
      | none => none

/-- The exchange part of the configuration (`config.Exchange`); only its
name is read by the code under verification. -/
structure Exchange where
  Name : String
deriving DecidableEq

/-- The AMQP configuration (`config.Config`); only `QueueName` and the
exchange name are read by the code under verification (the remaining fields
are declarative connection settings passed through to the broker client). -/
structure Config where
  QueueName : String
  Exchange : Exchange
deriving DecidableEq

/-- What a run of `AssertUniqueQueues` does observably: whether it panicked
(`log.Panic`) and the `(index, queue name)` pairs logged with `log.Errorf`
before the panic. -/
structure UQResult where
  halted : Bool
  logged : List (Nat × String)
deriving DecidableEq

/-- The diagnostic dump: every configuration's index and queue name. -/
def logAll (confs : List Config) : List (Nat × String) :=
  confs.enum.map fun p => (p.1, p.2.QueueName)

/-- The effect of `queues[name] = false` on the key set of the Go map:
insert the key if absent (the stored value is never read). -/
def addName (seen : List String) (n : String) : List String :=
  if n ∈ seen then seen else seen ++ [n]

/-- The loop of `AssertUniqueQueues`: `seen` is the key set of the Go map
`queues`, `i` the current index, `rest` the configurations still to scan;
the guard `len(queues)-1 != i` is evaluated in `Int` as Go does. -/
def uniqueAux (all : List Config) : List Config → Nat → List String → UQResult
  | [], _, _ => { halted := false, logged := [] }
  | c :: rest, i, seen =>
      if (((addName seen c.QueueName).length : Int) - 1 ≠ (i : Int)) then
        { halted := true, logged := logAll all }
      else
        uniqueAux all rest (i + 1) (addName seen c.QueueName)

/-- `AssertUniqueQueues` ensures that the configurations consists of unique
queues; translated from `utility.go`. -/
def AssertUniqueQueues (confs : List Config) : UQResult :=
  uniqueAux confs confs 0 []

/-- A queue service handle (the external `AMQPService` capability): its
configuration together with oracles for the outcomes of the broker calls
the bootstrapper makes through it (`CreateQueue`, `CreateExchange`,
`Channel`, and the channel's `QueueBind`).  `none` means a nil error. -/
structure AMQPService where
  config : Config
  createQueueResult : Option String
  createExchangeResult : Option String
  channelResult : Option String
  queueBindResult : Option String
deriving DecidableEq

/-- The observable behaviour of one service's goroutine in
`BindQueuesToExchange`: the `QueueBind` call made, if any, as
`(name, key, exchange, noWait)`; the error value sent on `errChan`
(`none` = nil); and whether the acquired channel was closed. -/
structure BindTrace where
  bindCall : Option (String × String × String × Bool)
  reported : Option String
  channelClosed : Bool
deriving DecidableEq

/-- One service's goroutine body in `BindQueuesToExchange`, translated from
`utility.go`: acquire a channel (reporting its error and stopping on
failure), skip the default exchange, otherwise bind the queue to the
exchange with the queue name as both destination and routing key. -/
def bindService (s : AMQPService) : BindTrace :=
  match s.channelResult with
  | some e => { bindCall := none, reported := some e, channelClosed := false }
  | none =>
      if s.config.Exchange.Name = "" then
        { bindCall := none, reported := none, channelClosed := true }
      else
        { bindCall := some (s.config.QueueName, s.config.QueueName,
                            s.config.Exchange.Name, false),
          reported := s.queueBindResult,
          channelClosed := true }

/-- `BindQueuesToExchange` binds the queues to the exchange, if it is not the
default exchange, with the queue name as the routing key; one goroutine per
service, each reporting once on `errChan`. -/
def BindQueuesToExchange (queues : List AMQPService) : List BindTrace :=
  queues.map bindService

/-- The two kinds of creation operation `TryCreateQueues` launches. -/
inductive OpKind where
  | queue
  | exchange
deriving DecidableEq

/-- The goroutines launched by the loop of `TryCreateQueues` over services
`i, i+1, ...`: one `CreateQueue` and one `CreateExchange` task per service. -/
def opsFrom (i : Nat) : Nat → List (Nat × OpKind)
  | 0 => []
  | n + 1 => (i, OpKind.queue) :: (i, OpKind.exchange) :: opsFrom (i + 1) n

/-- All creation operations `TryCreateQueues` issues for the given services. -/
def issuedOps (queues : List AMQPService) : List (Nat × OpKind) :=
  opsFrom 0 queues.length

/-- The error value operation `(i, k)` sends on `errChan`. -/
def opOutcome (queues : List AMQPService) : Nat × OpKind → Option String
  | (i, OpKind.queue) =>
      match queues[i]? with
      | some s => s.createQueueResult
      | none => none
  | (i, OpKind.exchange) =>
      match queues[i]? with
      | some s => s.createExchangeResult
      | none => none

/-- The multiset of results the launched goroutines send, in launch order;
any permutation of it is a possible arrival order on `errChan`. -/
def outcomes (queues : List AMQPService) : List (Option String) :=
  (issuedOps queues).map (opOutcome queues)

/-- The receive loop of `TryCreateQueues`: perform `n` blocking receives
from the given arrival sequence, logging each non-nil error at Debug
severity.  `none` models the loop blocking forever because fewer than `n`
results ever arrive; otherwise the logged errors are returned. -/
def drainLoop : Nat → List (Option String) → Option (List String)
  | 0, _ => some []
  | _ + 1, [] => none
  | n + 1, e :: rest =>
      (drainLoop n rest).map fun logs =>
        match e with
        | some msg => msg :: logs
        | none => logs

/-- `TryCreateQueues` attempts to create the given queues, but doesn't error
out if it fails; translated from `utility.go`.  The launched goroutines are
`issuedOps queues`; `arrival` is the order their results reach `errChan`,
and the loop performs `2 * len(queues)` receives before returning. -/
def TryCreateQueues (queues : List AMQPService) (arrival : List (Option String)) :
    Option (List String) :=
  drainLoop (2 * queues.length) arrival

/-! ### Basic lemmas about the table operations and 64-bit wrap-around -/

theorem hlookup_hset_self (t : Table) (k : String) (v : HVal) :
    hlookup (hset t k v) k = some v := by
  induction t with
  | nil => simp [hset, hlookup]
  | cons p rest ih =>
      obtain ⟨k', v'⟩ := p
      by_cases h : k' = k
      · simp [hset, hlookup, h]
      · simp [hset, hlookup, h, ih]

theorem hlookup_hset_ne (t : Table) (k k' : String) (v : HVal) (h : k' ≠ k) :
    hlookup (hset t k v) k' = hlookup t k' := by
  induction t with
  | nil => simp [hset, hlookup, Ne.symm h]
  | cons p rest ih =>
      obtain ⟨k₀, v₀⟩ := p
      by_cases h₀ : k₀ = k
      · subst h₀
        simp [hset, hlookup, Ne.symm h]
      · by_cases h₁ : k₀ = k'
        · simp [hset, hlookup, h₀, h₁, h, Ne.symm h]
        · simp [hset, hlookup, h₀, h₁, ih]

theorem wrap64_eq_self (x : Int) (hlo : -9223372036854775808 ≤ x)
    (hhi : x < 9223372036854775808) : wrap64 x = x := by
  unfold wrap64
  omega

theorem wrap64_lb (x : Int) : -9223372036854775808 ≤ wrap64 x := by
  unfold wrap64
  omega

theorem wrap64_ub (x : Int) : wrap64 x < 9223372036854775808 := by
  unfold wrap64
  omega

theorem wrap64_add_one (x : Int) : wrap64 (wrap64 x + 1) = wrap64 (x + 1) := by
  unfold wrap64
  omega

/-! ### The kickback iteration from a fresh delivery -/

/-- A delivery with no headers and zero metadata: the starting point of the
iterated-kickback scenario. -/
def blankDelivery : Delivery :=
  { Headers := none, ContentType := "", ContentEncoding := "", DeliveryMode := 0,
    Priority := 0, CorrelationId := "", ReplyTo := "", Expiration := "",
    MessageId := "", Timestamp := 0, Typ := "", Body := [] }

/-- The envelope a successful kickback of a blank delivery produces: only the
retry-count header and no other metadata. -/
def kickPub (k : Int) : Publishing :=
  { emptyPublishing with Headers := some [(RetryCountHeader, HVal.i64 k)] }

theorem iterKick_ok (m : Int) (hm : 0 ≤ m) (hmb : m ≤ 9223372036854775806) :
    ∀ n : Nat, (n : Int) ≤ m →
      iterKick m blankDelivery n =
        some { pub := kickPub ((n : Int) + 1), err := none,
               srcHeaders :=
                 if n = 0 then none
                 else some [(RetryCountHeader, HVal.i64 ((n : Int) + 1))] } := by
  intro n
  induction n with
  | zero =>
      intro _
      show GetKickbackMessage m blankDelivery = _
      have h1 : ¬ ((0 : Int) > m) := by omega
      have hw : wrap64 1 = 1 := wrap64_eq_self 1 (by omega) (by omega)
      simp [GetKickbackMessage, kickBase, blankDelivery, hlookup, hset, h1, hw, kickPub,
        emptyPublishing]
  | succ n ih =>
      intro hn
      have hn' : (n : Int) ≤ m := by push_cast at hn ⊢; omega
      have hstep := ih hn'
      show (match iterKick m blankDelivery n with
            | some r => if r.err = none then GetKickbackMessage m (redeliver r.pub) else some r
            | none => none) = _
      rw [hstep]
      have hcount : ¬ ((n : Int) + 1 > m) := by push_cast at hn; omega
      have hw : wrap64 ((n : Int) + 1 + 1) = (n : Int) + 1 + 1 :=
        wrap64_eq_self _ (by omega) (by push_cast at hn; omega)
      simp [redeliver, kickPub, emptyPublishing, GetKickbackMessage, kickBase, hlookup,
        hset, hcount, hw]

theorem iterKick_fail (m : Int) (hm : 0 ≤ m) (hmb : m ≤ 9223372036854775806) :
    iterKick m blankDelivery (m.toNat + 1) =
      some { pub := emptyPublishing, err := some tooManyRetries,
             srcHeaders := some [(RetryCountHeader, HVal.i64 (m + 1))] } := by
  have hcast : ((m.toNat : Int)) = m := Int.toNat_of_nonneg hm
  have hstep := iterKick_ok m hm hmb m.toNat (by omega)
  show (match iterKick m blankDelivery m.toNat with
        | some r => if r.err = none then GetKickbackMessage m (redeliver r.pub) else some r
        | none => none) = _
  rw [hstep]
  have hgt : (m.toNat : Int) + 1 > m := by omega
  simp [redeliver, kickPub, emptyPublishing, GetKickbackMessage, kickBase, hlookup, hset,
    hgt, hcast]

theorem iterKick_maxInt :
    ∀ n : Nat,
      iterKick 9223372036854775807 blankDelivery n =
        some { pub := kickPub (wrap64 ((n : Int) + 1)), err := none,
               srcHeaders :=
                 if n = 0 then none
                 else some [(RetryCountHeader, HVal.i64 (wrap64 ((n : Int) + 1)))] } := by
  intro n
  induction n with
  | zero =>
      show GetKickbackMessage 9223372036854775807 blankDelivery = _
      have h1 : ¬ ((0 : Int) > 9223372036854775807) := by omega
      simp [GetKickbackMessage, kickBase, blankDelivery, hlookup, hset, h1, kickPub,
        emptyPublishing]
  | succ n ih =>
      show (match iterKick 9223372036854775807 blankDelivery n with
            | some r => if r.err = none then
                GetKickbackMessage 9223372036854775807 (redeliver r.pub) else some r
            | none => none) = _
      rw [ih]
      have hub : ¬ (wrap64 ((n : Int) + 1) > 9223372036854775807) := by
        have := wrap64_ub ((n : Int) + 1)
        omega
      have hw : wrap64 (wrap64 ((n : Int) + 1) + 1) = wrap64 ((n : Int) + 1 + 1) :=
        wrap64_add_one _
      simp [redeliver, kickPub, emptyPublishing, GetKickbackMessage, kickBase, hlookup,
        hset, hub, hw]

/-! ### The uniqueness validator's loop invariant -/

theorem uniqueAux_halt (all : List Config) (c : Config) (rest : List Config)
    (i : Nat) (seen : List String)
    (h : ((addName seen c.QueueName).length : Int) - 1 ≠ (i : Int)) :
    uniqueAux all (c :: rest) i seen = { halted := true, logged := logAll all } := by
  show (if (((addName seen c.QueueName).length : Int) - 1 ≠ (i : Int)) then
          ({ halted := true, logged := logAll all } : UQResult)
        else uniqueAux all rest (i + 1) (addName seen c.QueueName)) = _
  rw [if_pos h]

theorem uniqueAux_next (all : List Config) (c : Config) (rest : List Config)
    (i : Nat) (seen : List String)
    (h : ¬ (((addName seen c.QueueName).length : Int) - 1 ≠ (i : Int))) :
    uniqueAux all (c :: rest) i seen
      = uniqueAux all rest (i + 1) (addName seen c.QueueName) := by
  show (if (((addName seen c.QueueName).length : Int) - 1 ≠ (i : Int)) then
          ({ halted := true, logged := logAll all } : UQResult)
        else uniqueAux all rest (i + 1) (addName seen c.QueueName)) = _
  rw [if_neg h]

theorem uniqueAux_spec (all : List Config) :
    ∀ (rest : List Config) (i : Nat) (seen : List String), seen.length = i →
      ((uniqueAux all rest i seen).halted = false ↔
        ((rest.map Config.QueueName).Nodup ∧ ∀ c ∈ rest, c.QueueName ∉ seen))
      ∧ (uniqueAux all rest i seen).logged
          = (if (uniqueAux all rest i seen).halted then logAll all else []) := by
  intro rest
  induction rest with
  | nil =>
      intro i seen _
      constructor
      · simp [uniqueAux]
      · simp [uniqueAux]
  | cons c rest ih =>
      intro i seen hlen
      by_cases hmem : c.QueueName ∈ seen
      · have hadd : addName seen c.QueueName = seen := by simp [addName, hmem]
        have hguard : ((addName seen c.QueueName).length : Int) - 1 ≠ (i : Int) := by
          rw [hadd, hlen]
          omega
        rw [uniqueAux_halt all c rest i seen hguard]
        constructor
        · constructor
          · intro h
            simp at h
          · rintro ⟨_, hforall⟩
            exact absurd hmem (hforall c (List.mem_cons_self c rest))
        · simp
      · have hadd : addName seen c.QueueName = seen ++ [c.QueueName] := by
          simp [addName, hmem]
        have hlen' : (addName seen c.QueueName).length = i + 1 := by
          rw [hadd]
          simp [hlen]
        have hguard : ¬ (((addName seen c.QueueName).length : Int) - 1 ≠ (i : Int)) := by
          rw [hlen']
          push_cast
          omega
        rw [uniqueAux_next all c rest i seen hguard]
        obtain ⟨ihiff, ihlog⟩ := ih (i + 1) (addName seen c.QueueName) hlen'
        refine ⟨?_, ihlog⟩
        rw [ihiff, hadd]
        constructor
        · rintro ⟨hnd, hnotin⟩
          constructor
          · simp only [List.map_cons, List.nodup_cons]
            constructor
            · intro habs
              obtain ⟨c', hc', hname⟩ := List.mem_map.mp habs
              have hni := hnotin c' hc'
              simp only [List.mem_append, List.mem_singleton] at hni
              exact hni (Or.inr hname)
            · exact hnd
          · intro c' hc'
            rcases List.mem_cons.mp hc' with h | h
            · rw [h]
              exact hmem
            · intro habs
              have hni := hnotin c' h
              simp only [List.mem_append, List.mem_singleton] at hni
              exact hni (Or.inl habs)
        · rintro ⟨hnd, hnotin⟩
          simp only [List.map_cons, List.nodup_cons] at hnd
          constructor
          · exact hnd.2
          · intro c' hc'
            simp only [List.mem_append, List.mem_singleton]
            rintro (habs | habs)
            · exact hnotin c' (List.mem_cons.mpr (Or.inr hc')) habs
            · exact hnd.1 (List.mem_map.mpr ⟨c', hc', habs⟩)

/-! ### The bootstrapper's drain loop -/

theorem drainLoop_exact :
    ∀ l : List (Option String), drainLoop l.length l = some (l.filterMap id) := by
  intro l
  induction l with
  | nil => simp [drainLoop]
  | cons e rest ih =>
      cases e with
      | none => simp [drainLoop, ih, List.filterMap_cons]
      | some msg => simp [drainLoop, ih, List.filterMap_cons]

theorem drainLoop_short :
    ∀ (n : Nat) (l : List (Option String)), l.length < n → drainLoop n l = none := by
  intro n
  induction n with
  | zero =>
      intro l h
      omega
  | succ n ih =>
      intro l h
      cases l with
      | nil => simp [drainLoop]
      | cons e rest =>
          simp at h
          simp [drainLoop, ih rest (by omega)]

theorem opsFrom_length : ∀ (n i : Nat), (opsFrom i n).length = 2 * n := by
  intro n
  induction n with
  | zero => intro i; simp [opsFrom]
  | succ n ih =>
      intro i
      simp [opsFrom, ih (i + 1)]
      omega

theorem mem_opsFrom :
    ∀ (n i j : Nat) (k : OpKind), (j, k) ∈ opsFrom i n ↔ (i ≤ j ∧ j < i + n) := by
  intro n
  induction n with
  | zero =>
      intro i j k
      simp [opsFrom]
      try omega
  | succ n ih =>
      intro i j k
      cases k
      · simp [opsFrom, ih (i + 1) j]
        try omega
      · simp [opsFrom, ih (i + 1) j]
        try omega

/-! ### Characterisation of GetKickbackMessage -/

theorem preCount64_headers_none (msg : Delivery) (hH : msg.Headers = none) :
    preCount64 msg = some 0 := by
  unfold preCount64
  rw [hH]

theorem preCount64_headers_some (msg : Delivery) (h : Table)
    (hH : msg.Headers = some h) :
    preCount64 msg =
      (match hlookup h RetryCountHeader with
       | none => some 0
       | some (HVal.i64 c) => some c
       | some _ => none) := by
  unfold preCount64
  rw [hH]

theorem kickBase_lookup (msg : Delivery) (c : Int)
    (hpre : preCount64 msg = some c) :
    hlookup (kickBase msg) RetryCountHeader = some (HVal.i64 c) := by
  unfold kickBase
  cases hH : msg.Headers with
  | none =>
      rw [preCount64_headers_none msg hH] at hpre
      simp only [Option.some.injEq] at hpre
      subst hpre
      simp [hlookup, hset]
  | some h =>
      rw [preCount64_headers_some msg h hH] at hpre
      simp only [Option.getD_some]
      cases hv : hlookup h RetryCountHeader with
      | none =>
          rw [hv] at hpre
          simp only [Option.some.injEq] at hpre
          subst hpre
          simp [hv, hlookup_hset_self]
      | some v =>
          rw [hv] at hpre
          cases v with
          | i64 c0 =>
              simp only [Option.some.injEq, HVal.i64.injEq] at hpre
              subst hpre
              simp [hv]
          | i32 c0 => simp at hpre
          | str s => simp at hpre
          | boolean b => simp at hpre

theorem kickBase_lookup_ne (msg : Delivery) (k : String)
    (hk : k ≠ RetryCountHeader) :
    hlookup (kickBase msg) k = hlookup (msg.Headers.getD []) k := by
  unfold kickBase
  split
  · exact hlookup_hset_ne _ _ _ _ hk
  · rfl

theorem GetKickbackMessage_exhausted (maxRetries : Int) (msg : Delivery) (c : Int)
    (hpre : preCount64 msg = some c) (hgt : c > maxRetries) :
    GetKickbackMessage maxRetries msg =
      some { pub := emptyPublishing, err := some tooManyRetries,
             srcHeaders := msg.Headers.map (fun _ => kickBase msg) } := by
  have hb := kickBase_lookup msg c hpre
  unfold GetKickbackMessage
  rw [hb]
  simp [hgt]

theorem GetKickbackMessage_success (maxRetries : Int) (msg : Delivery) (c : Int)
    (hpre : preCount64 msg = some c) (hle : ¬ c > maxRetries) :
    GetKickbackMessage maxRetries msg =
      some { pub :=
              { Headers := some (hset (kickBase msg) RetryCountHeader
                  (HVal.i64 (wrap64 (c + 1)))),
                ContentType := msg.ContentType,
                ContentEncoding := msg.ContentEncoding,
                DeliveryMode := msg.DeliveryMode,
                Priority := msg.Priority,
                CorrelationId := msg.CorrelationId,
                ReplyTo := msg.ReplyTo,
                Expiration := msg.Expiration,
                MessageId := msg.MessageId,
                Timestamp := msg.Timestamp,
                Typ := msg.Typ,
                Body := msg.Body },
             err := none,
             srcHeaders := msg.Headers.map (fun _ =>
               hset (kickBase msg) RetryCountHeader (HVal.i64 (wrap64 (c + 1)))) } := by
  have hb := kickBase_lookup msg c hpre
  unfold GetKickbackMessage
  rw [hb]
  simp [hle]

theorem GetKickbackMessage_none_iff (maxRetries : Int) (msg : Delivery) :
    GetKickbackMessage maxRetries msg = none ↔ preCount64 msg = none := by
  constructor
  · intro hnone
    cases hpre : preCount64 msg with
    | none => rfl
    | some c =>
        by_cases hgt : c > maxRetries
        · rw [GetKickbackMessage_exhausted maxRetries msg c hpre hgt] at hnone
          exact absurd hnone (by simp)
        · rw [GetKickbackMessage_success maxRetries msg c hpre hgt] at hnone
          exact absurd hnone (by simp)
  · intro hpre
    cases hH : msg.Headers with
    | none =>
        rw [preCount64_headers_none msg hH] at hpre
        exact absurd hpre (by simp)
    | some h =>
        rw [preCount64_headers_some msg h hH] at hpre
        have hkb : kickBase msg = h := by
          unfold kickBase
          rw [hH]
          cases hv : hlookup h RetryCountHeader with
          | none =>
              rw [hv] at hpre
              simp at hpre
          | some v => simp [hv]
        cases hv : hlookup h RetryCountHeader with
        | none =>
            rw [hv] at hpre
            simp at hpre
        | some v =>
            rw [hv] at hpre
            cases v with
            | i64 c0 => simp at hpre
            | i32 c0 =>
                unfold GetKickbackMessage
                rw [hkb, hv]
            | str s =>
                unfold GetKickbackMessage
                rw [hkb, hv]
            | boolean b =>
                unfold GetKickbackMessage
                rw [hkb, hv]

/-! ### Claim theorems -/

/-- Claim C4: `AssertUniqueQueues` returns without halting exactly when the
configurations' queue names are pairwise distinct; on a duplicate it halts
after logging every configuration's index and queue name, the duplicate being
detected by comparing the running count of distinct names with the index. -/
theorem c4_assert_unique_queues (confs : List Config) :
    ((AssertUniqueQueues confs).halted = false ↔ (confs.map Config.QueueName).Nodup)
    ∧ (AssertUniqueQueues confs).logged
        = (if (AssertUniqueQueues confs).halted then logAll confs else []) := by
  obtain ⟨hiff, hlog⟩ := uniqueAux_spec confs confs 0 [] rfl
  refine ⟨?_, hlog⟩
  rw [show AssertUniqueQueues confs = uniqueAux confs confs 0 [] from rfl, hiff]
  simp

/-- Claim C7: `CreateMessage` and `GetNextMessage` fail — returning the
serialization error to the caller together with the empty envelope — exactly
when the body cannot be serialized; when serialization succeeds neither
returns an error. -/
theorem c7_serialization_error_exactness (β : Type)
    (marshal : β → Except String (List Nat)) (body : β) (msg : Delivery) :
    (match marshal body with
     | .error e =>
         CreateMessage marshal body = (emptyPublishing, some e)
         ∧ (GetNextMessage marshal msg body).pub = emptyPublishing
         ∧ (GetNextMessage marshal msg body).err = some e
     | .ok _ =>
         (CreateMessage marshal body).2 = none
         ∧ (GetNextMessage marshal msg body).err = none) := by
  cases hm : marshal body with
  | error e => simp [CreateMessage, GetNextMessage, hm]
  | ok raw => simp [CreateMessage, GetNextMessage, hm]

/-- Claim C10: `GetKickbackMessage` panics (produces no return at all, from
the failed `.(int64)` type assertion) precisely when the source's header map
binds the retry-count key to a non-int64 value; with the key absent or bound
to an int64 the call returns normally. -/
theorem c10_kickback_panic_condition (maxRetries : Int) (msg : Delivery) :
    GetKickbackMessage maxRetries msg = none ↔
      (∃ h v, msg.Headers = some h ∧ hlookup h RetryCountHeader = some v
        ∧ v.isI64 = false) := by
  rw [GetKickbackMessage_none_iff]
  cases hH : msg.Headers with
  | none =>
      rw [preCount64_headers_none msg hH]
      simp
  | some h =>
      rw [preCount64_headers_some msg h hH]
      cases hv : hlookup h RetryCountHeader with
      | none => simp [hv]
      | some v =>
          cases v with
          | i64 c0 => simp [hv, HVal.isI64]
          | i32 c0 => simp [hv, HVal.isI64]
          | str s0 => simp [hv, HVal.isI64]
          | boolean b0 => simp [hv, HVal.isI64]

/-- Claim C6: `CreateMessage` on a serializable body yields an envelope whose
only header entry is retryCount = 0, whose body is the serialized bytes, and
whose other metadata fields are all unpopulated (zero values). -/
theorem c6_create_message_shape (β : Type)
    (marshal : β → Except String (List Nat)) (body : β) (raw : List Nat)
    (hm : marshal body = .ok raw) :
    CreateMessage marshal body =
      ({ Headers := some [(RetryCountHeader, HVal.i64 0)], ContentType := "",
         ContentEncoding := "", DeliveryMode := 0, Priority := 0,
         CorrelationId := "", ReplyTo := "", Expiration := "", MessageId := "",
         Timestamp := 0, Typ := "", Body := raw }, none) := by
  simp [CreateMessage, hm, emptyPublishing]

/-- A sample serializer standing for `json.Marshal` on `Nat` bodies. -/
def okNatMarshal : Nat → Except String (List Nat) := fun n => .ok [n]

/-- Witness for C6 at a concrete serializable body. -/
theorem c6_create_message_shape_witness :
    okNatMarshal 7 = .ok [7]
    ∧ CreateMessage okNatMarshal 7 =
      ({ Headers := some [(RetryCountHeader, HVal.i64 0)], ContentType := "",
         ContentEncoding := "", DeliveryMode := 0, Priority := 0,
         CorrelationId := "", ReplyTo := "", Expiration := "", MessageId := "",
         Timestamp := 0, Typ := "", Body := [7] }, none) :=
  ⟨rfl, c6_create_message_shape Nat okNatMarshal 7 [7] rfl⟩

/-- Claim C5: `GetNextMessage` on a serializable body returns an envelope
whose retryCount header is 0 regardless of the source's prior count, copies
content-type, content-encoding, delivery-mode and type from the source,
carries the freshly serialized bytes as body, and starts from an empty
mapping when the source had none. -/
theorem c5_next_message_shape (β : Type)
    (marshal : β → Except String (List Nat)) (msg : Delivery) (body : β)
    (raw : List Nat) (hm : marshal body = .ok raw) :
    (GetNextMessage marshal msg body).err = none
    ∧ hlookup ((GetNextMessage marshal msg body).pub.Headers.getD [])
        RetryCountHeader = some (HVal.i64 0)
    ∧ (GetNextMessage marshal msg body).pub.ContentType = msg.ContentType
    ∧ (GetNextMessage marshal msg body).pub.ContentEncoding = msg.ContentEncoding
    ∧ (GetNextMessage marshal msg body).pub.DeliveryMode = msg.DeliveryMode
    ∧ (GetNextMessage marshal msg body).pub.Typ = msg.Typ
    ∧ (GetNextMessage marshal msg body).pub.Body = raw
    ∧ (msg.Headers = none →
        (GetNextMessage marshal msg body).pub.Headers
          = some [(RetryCountHeader, HVal.i64 0)]) := by
  refine ⟨?_, ?_, ?_, ?_, ?_, ?_, ?_, ?_⟩ <;>
    simp [GetNextMessage, hm, hlookup_hset_self]
  intro hH
  simp [hH, hset]

/-- A sample inbound delivery with populated headers and metadata. -/
def sampleDelivery : Delivery :=
  { Headers := some [(RetryCountHeader, HVal.i64 7), ("trace", HVal.str "t1")],
    ContentType := "application/json", ContentEncoding := "utf-8",
    DeliveryMode := 2, Priority := 3, CorrelationId := "corr", ReplyTo := "rq",
    Expiration := "60000", MessageId := "m1", Timestamp := 1700000000,
    Typ := "job", Body := [1, 2, 3] }

/-- Witness for C5 at a concrete delivery whose prior retry count is 7. -/
theorem c5_next_message_shape_witness :
    okNatMarshal 9 = .ok [9]
    ∧ ((GetNextMessage okNatMarshal sampleDelivery 9).err = none
    ∧ hlookup ((GetNextMessage okNatMarshal sampleDelivery 9).pub.Headers.getD [])
        RetryCountHeader = some (HVal.i64 0)
    ∧ (GetNextMessage okNatMarshal sampleDelivery 9).pub.ContentType
        = sampleDelivery.ContentType
    ∧ (GetNextMessage okNatMarshal sampleDelivery 9).pub.ContentEncoding
        = sampleDelivery.ContentEncoding
    ∧ (GetNextMessage okNatMarshal sampleDelivery 9).pub.DeliveryMode
        = sampleDelivery.DeliveryMode
    ∧ (GetNextMessage okNatMarshal sampleDelivery 9).pub.Typ = sampleDelivery.Typ
    ∧ (GetNextMessage okNatMarshal sampleDelivery 9).pub.Body = [9]
    ∧ (sampleDelivery.Headers = none →
        (GetNextMessage okNatMarshal sampleDelivery 9).pub.Headers
          = some [(RetryCountHeader, HVal.i64 0)])) :=
  ⟨rfl, c5_next_message_shape Nat okNatMarshal sampleDelivery 9 [9] rfl⟩

/-- A delivery carrying the largest int64 retry count. -/
def c1delivery : Delivery :=
  { blankDelivery with
      Headers := some [(RetryCountHeader, HVal.i64 9223372036854775807)] }

/-- Claim C1 (counterexample): at retry count 2^63 - 1 with maxRetries
2^63 - 1 the exhaustion check passes and the int64 increment wraps around,
so the envelope's retry count is -2^63, not count plus one. -/
theorem c1_counterexample :
    (GetKickbackMessage 9223372036854775807 c1delivery).map
        (fun r => (r.err, hlookup (r.pub.Headers.getD []) RetryCountHeader))
      = some (none, some (HVal.i64 (-9223372036854775808)))
    ∧ HVal.i64 (-9223372036854775808)
        ≠ HVal.i64 (9223372036854775807 + 1) := by
  constructor
  · decide
  · decide

/-- Claim C1 (amended): `GetKickbackMessage` reads the pre-increment retry
count (0 when the header is absent); when that count is strictly greater
than maxRetries it fails with the retry-exhausted error and the empty
envelope; otherwise it returns an envelope whose retry count is the count
plus one computed in wrapping 64-bit arithmetic (equal to count plus one
whenever count < 2^63 - 1). -/
theorem c1_kickback_retry_accounting (maxRetries : Int) (msg : Delivery)
    (c : Int) (hpre : preCount64 msg = some c) :
    (c > maxRetries →
      (GetKickbackMessage maxRetries msg).map (fun r => (r.err, r.pub))
        = some (some tooManyRetries, emptyPublishing))
    ∧ (c ≤ maxRetries →
      (GetKickbackMessage maxRetries msg).map
          (fun r => (r.err, hlookup (r.pub.Headers.getD []) RetryCountHeader))
        = some (none, some (HVal.i64 (wrap64 (c + 1))))) := by
  constructor
  · intro hgt
    rw [GetKickbackMessage_exhausted maxRetries msg c hpre hgt]
    simp
  · intro hle
    rw [GetKickbackMessage_success maxRetries msg c hpre (by omega)]
    simp [hlookup_hset_self]

/-- A delivery carrying retry count 1. -/
def c1wDelivery : Delivery :=
  { blankDelivery with Headers := some [(RetryCountHeader, HVal.i64 1)] }

/-- Witness for C1 at retry count 1 and maxRetries 2. -/
theorem c1_kickback_retry_accounting_witness :
    preCount64 c1wDelivery = some 1
    ∧ (((1 : Int) > 2 →
      (GetKickbackMessage 2 c1wDelivery).map (fun r => (r.err, r.pub))
        = some (some tooManyRetries, emptyPublishing))
    ∧ ((1 : Int) ≤ 2 →
      (GetKickbackMessage 2 c1wDelivery).map
          (fun r => (r.err, hlookup (r.pub.Headers.getD []) RetryCountHeader))
        = some (none, some (HVal.i64 (wrap64 (1 + 1)))))) :=
  ⟨by decide, c1_kickback_retry_accounting 2 c1wDelivery 1 (by decide)⟩

/-- Claim C2 (counterexample): with maxRetries = 2^63 - 1 the iterated
kickback never exhausts: the call the claim expects to succeed with count
maxRetries + 1 instead succeeds with the wrapped count -2^63, and the call
the claim expects to fail succeeds as well. -/
theorem c2_counterexample :
    (iterKick 9223372036854775807 blankDelivery 9223372036854775807).map
        (fun r => (r.err, hlookup (r.pub.Headers.getD []) RetryCountHeader))
      = some (none, some (HVal.i64 (-9223372036854775808)))
    ∧ HVal.i64 (-9223372036854775808)
        ≠ HVal.i64 (9223372036854775807 + 1)
    ∧ (iterKick 9223372036854775807 blankDelivery 9223372036854775808).map
        KickReturn.err = some none := by
  refine ⟨?_, by decide, ?_⟩
  · rw [iterKick_maxInt 9223372036854775807]
    simp only [Option.map_some, kickPub, emptyPublishing, Option.getD_some,
      hlookup]
    norm_num [wrap64]
    decide
  · rw [iterKick_maxInt 9223372036854775808]
    simp

/-- Claim C2 (amended): for 0 ≤ maxRetries ≤ 2^63 - 2, iterating
`GetKickbackMessage` on its own redelivered output from a delivery with no
retry header succeeds on each of the first maxRetries + 1 calls with retry
counts 1, 2, ..., maxRetries + 1, and the next call — made when the
pre-call count is maxRetries + 1 — fails with the retry-exhausted error
and the empty envelope. -/
theorem c2_kickback_iteration (m : Int) (n : Nat) (hm : 0 ≤ m)
    (hmb : m ≤ 9223372036854775806) (hn : (n : Int) ≤ m) :
    (iterKick m blankDelivery n).map
        (fun r => (r.err, hlookup (r.pub.Headers.getD []) RetryCountHeader))
      = some (none, some (HVal.i64 ((n : Int) + 1)))
    ∧ (iterKick m blankDelivery (m.toNat + 1)).map (fun r => (r.err, r.pub))
      = some (some tooManyRetries, emptyPublishing) := by
  constructor
  · rw [iterKick_ok m hm hmb n hn]
    simp [kickPub, emptyPublishing, hlookup]
  · rw [iterKick_fail m hm hmb]
    simp

/-- Witness for C2 at maxRetries 2, second call. -/
theorem c2_kickback_iteration_witness :
    (0 : Int) ≤ 2 ∧ (2 : Int) ≤ 9223372036854775806 ∧ ((1 : Nat) : Int) ≤ 2
    ∧ ((iterKick 2 blankDelivery 1).map
        (fun r => (r.err, hlookup (r.pub.Headers.getD []) RetryCountHeader))
      = some (none, some (HVal.i64 (((1 : Nat) : Int) + 1)))
    ∧ (iterKick 2 blankDelivery ((2 : Int).toNat + 1)).map
        (fun r => (r.err, r.pub))
      = some (some tooManyRetries, emptyPublishing)) :=
  ⟨by decide, by decide, by decide,
    c2_kickback_iteration 2 1 (by decide) (by decide) (by decide)⟩

/-- A delivery with a non-nil header map carrying retry count 0. -/
def c3delivery : Delivery :=
  { blankDelivery with Headers := some [(RetryCountHeader, HVal.i64 0)] }

/-- Claim C3 (counterexample): a successful kickback writes the incremented
retry count through the shared map, so after the call the source delivery's
header mapping holds retryCount 1 — it was written to, not left unchanged. -/
theorem c3_counterexample :
    (GetKickbackMessage 5 c3delivery).map KickReturn.srcHeaders
      = some (some [(RetryCountHeader, HVal.i64 1)])
    ∧ c3delivery.Headers = some [(RetryCountHeader, HVal.i64 0)]
    ∧ some [(RetryCountHeader, HVal.i64 1)] ≠ c3delivery.Headers := by
  refine ⟨by decide, by decide, by decide⟩

/-- Claim C3 (amended): both factory functions build the envelope's header
mapping from the source's (an empty one when the source had none), agreeing
with it on every key other than retryCount; `GetKickbackMessage` carries the
body bytes over unchanged and `GetNextMessage` installs the freshly
serialized bytes.  But the envelope shares the source's header map instead
of copying it: whenever the source's map is non-nil, the retry-count write
goes through it, leaving the source's map equal to the envelope's. -/
theorem c3_header_aliasing (maxRetries : Int) (msg : Delivery) (r : KickReturn)
    (β : Type) (marshal : β → Except String (List Nat)) (body : β)
    (raw : List Nat) (hk : GetKickbackMessage maxRetries msg = some r)
    (he : r.err = none) (hm : marshal body = .ok raw) :
    r.pub.Body = msg.Body
    ∧ (∀ k, k ≠ RetryCountHeader →
        hlookup (r.pub.Headers.getD []) k = hlookup (msg.Headers.getD []) k)
    ∧ r.srcHeaders = msg.Headers.map (fun _ => r.pub.Headers.getD [])
    ∧ (GetNextMessage marshal msg body).pub.Body = raw
    ∧ (∀ k, k ≠ RetryCountHeader →
        hlookup ((GetNextMessage marshal msg body).pub.Headers.getD []) k
          = hlookup (msg.Headers.getD []) k)
    ∧ (GetNextMessage marshal msg body).srcHeaders
        = msg.Headers.map
            (fun _ => (GetNextMessage marshal msg body).pub.Headers.getD []) := by
  have hnb : (GetNextMessage marshal msg body).pub.Body = raw := by
    simp [GetNextMessage, hm]
  have hnk : ∀ k, k ≠ RetryCountHeader →
      hlookup ((GetNextMessage marshal msg body).pub.Headers.getD []) k
        = hlookup (msg.Headers.getD []) k := by
    intro k hknot
    simp only [GetNextMessage, hm, Option.getD_some]
    exact hlookup_hset_ne _ _ _ _ hknot
  have hns : (GetNextMessage marshal msg body).srcHeaders
      = msg.Headers.map
          (fun _ => (GetNextMessage marshal msg body).pub.Headers.getD []) := by
    simp [GetNextMessage, hm]
  have hcex : ∃ c, preCount64 msg = some c := by
    cases hpre : preCount64 msg with
    | none =>
        rw [← GetKickbackMessage_none_iff maxRetries msg] at hpre
        rw [hk] at hpre
        exact absurd hpre (by simp)
    | some c => exact ⟨c, rfl⟩
  obtain ⟨c, hpre⟩ := hcex
  by_cases hgt : c > maxRetries
  · rw [GetKickbackMessage_exhausted maxRetries msg c hpre hgt] at hk
    have hr := Option.some.inj hk
    rw [← hr] at he
    exact absurd he (by simp)
  · rw [GetKickbackMessage_success maxRetries msg c hpre hgt] at hk
    have hr := Option.some.inj hk
    subst hr
    refine ⟨rfl, ?_, rfl, hnb, hnk, hns⟩
    intro k hknot
    simp only [Option.getD_some]
    rw [hlookup_hset_ne _ _ _ _ hknot]
    exact kickBase_lookup_ne msg k hknot

/-- The concrete value `GetKickbackMessage 5 c1wDelivery` returns. -/
def c3wReturn : KickReturn :=
  { pub :=
      { Headers := some [(RetryCountHeader, HVal.i64 2)], ContentType := "",
        ContentEncoding := "", DeliveryMode := 0, Priority := 0,
        CorrelationId := "", ReplyTo := "", Expiration := "", MessageId := "",
        Timestamp := 0, Typ := "", Body := [] },
    err := none,
    srcHeaders := some [(RetryCountHeader, HVal.i64 2)] }

/-- Witness for C3 at a concrete delivery and serializable body. -/
theorem c3_header_aliasing_witness :
    GetKickbackMessage 5 c1wDelivery = some c3wReturn
    ∧ c3wReturn.err = none
    ∧ okNatMarshal 4 = .ok [4]
    ∧ (c3wReturn.pub.Body = c1wDelivery.Body
    ∧ (∀ k, k ≠ RetryCountHeader →
        hlookup (c3wReturn.pub.Headers.getD []) k
          = hlookup (c1wDelivery.Headers.getD []) k)
    ∧ c3wReturn.srcHeaders
        = c1wDelivery.Headers.map (fun _ => c3wReturn.pub.Headers.getD [])
    ∧ (GetNextMessage okNatMarshal c1wDelivery 4).pub.Body = [4]
    ∧ (∀ k, k ≠ RetryCountHeader →
        hlookup ((GetNextMessage okNatMarshal c1wDelivery 4).pub.Headers.getD []) k
          = hlookup (c1wDelivery.Headers.getD []) k)
    ∧ (GetNextMessage okNatMarshal c1wDelivery 4).srcHeaders
        = c1wDelivery.Headers.map
            (fun _ => (GetNextMessage okNatMarshal c1wDelivery 4).pub.Headers.getD [])) :=
  ⟨by decide, by decide, rfl,
    c3_header_aliasing 5 c1wDelivery c3wReturn Nat okNatMarshal 4 [4]
      (by decide) (by decide) rfl⟩

/-- A service whose channel acquisition fails while its exchange name is
empty. -/
def c8service : AMQPService :=
  { config := { QueueName := "q0", Exchange := { Name := "" } },
    createQueueResult := none, createExchangeResult := none,
    channelResult := some "channel unavailable", queueBindResult := none }

/-- Claim C8 (counterexample): a service with an empty exchange name whose
channel acquisition fails has the channel error reported for it, so "no
error is reported" does not hold unconditionally for the empty-name case
(no bind is performed either way). -/
theorem c8_counterexample :
    c8service.config.Exchange.Name = ""
    ∧ (BindQueuesToExchange [c8service]).map BindTrace.reported
        = [some "channel unavailable"]
    ∧ (BindQueuesToExchange [c8service]).map BindTrace.bindCall = [none] := by
  refine ⟨by decide, by decide, by decide⟩

/-- Claim C8 (amended): for every service of a `BindQueuesToExchange` batch,
when channel acquisition succeeds: an empty exchange name means no bind call
and no reported error, and a non-empty exchange name means one bind of the
queue to that exchange with the queue's own name as both destination queue
and routing key (reporting the bind's result); when channel acquisition
fails, no bind is performed and the channel error is reported. -/
theorem c8_bind_queues_to_exchange (queues : List AMQPService) (i : Nat)
    (s : AMQPService) (hs : queues[i]? = some s) :
    (BindQueuesToExchange queues)[i]? = some (bindService s)
    ∧ (s.channelResult = none → s.config.Exchange.Name = "" →
        (bindService s).bindCall = none ∧ (bindService s).reported = none)
    ∧ (s.channelResult = none → s.config.Exchange.Name ≠ "" →
        (bindService s).bindCall
          = some (s.config.QueueName, s.config.QueueName,
                  s.config.Exchange.Name, false)
        ∧ (bindService s).reported = s.queueBindResult)
    ∧ (∀ e, s.channelResult = some e →
        (bindService s).bindCall = none ∧ (bindService s).reported = some e) := by
  refine ⟨?_, ?_, ?_, ?_⟩
  · simp [BindQueuesToExchange, List.getElem?_map, hs]
  · intro hch hex
    simp [bindService, hch, hex]
  · intro hch hex
    simp [bindService, hch, hex]
  · intro e hch
    simp [bindService, hch]

/-- A service with a healthy channel and a named exchange. -/
def c8okService : AMQPService :=
  { config := { QueueName := "q1", Exchange := { Name := "ex1" } },
    createQueueResult := none, createExchangeResult := none,
    channelResult := none, queueBindResult := none }

/-- Witness for C8 at a one-service batch with a named exchange. -/
theorem c8_bind_queues_to_exchange_witness :
    ([c8okService][0]? = some c8okService)
    ∧ ((BindQueuesToExchange [c8okService])[0]? = some (bindService c8okService)
    ∧ (c8okService.channelResult = none → c8okService.config.Exchange.Name = "" →
        (bindService c8okService).bindCall = none
        ∧ (bindService c8okService).reported = none)
    ∧ (c8okService.channelResult = none → c8okService.config.Exchange.Name ≠ "" →
        (bindService c8okService).bindCall
          = some (c8okService.config.QueueName, c8okService.config.QueueName,
                  c8okService.config.Exchange.Name, false)
        ∧ (bindService c8okService).reported = c8okService.queueBindResult)
    ∧ (∀ e, c8okService.channelResult = some e →
        (bindService c8okService).bindCall = none
        ∧ (bindService c8okService).reported = some e)) :=
  ⟨rfl, c8_bind_queues_to_exchange [c8okService] 0 c8okService rfl⟩

/-- Claim C9: `TryCreateQueues` over N services launches exactly 2N creation
operations — one create-queue and one create-exchange task per service index
— and its receive loop returns exactly when all 2N results have arrived
(blocking forever on fewer), logging every failure without aborting,
whatever order the concurrently produced results arrive in (any permutation
of the outcomes, including all-failing ones). -/
theorem c9_try_create_queues (queues : List AMQPService)
    (arrival : List (Option String)) (hperm : arrival.Perm (outcomes queues)) :
    (issuedOps queues).length = 2 * queues.length
    ∧ (∀ i, (i < queues.length ↔ (i, OpKind.queue) ∈ issuedOps queues)
        ∧ (i < queues.length ↔ (i, OpKind.exchange) ∈ issuedOps queues))
    ∧ TryCreateQueues queues arrival = some (arrival.filterMap id)
    ∧ (∀ pre : List (Option String), pre.length < 2 * queues.length →
        TryCreateQueues queues pre = none) := by
  have hlen : arrival.length = 2 * queues.length := by
    rw [hperm.length_eq]
    show (List.map (opOutcome queues) (issuedOps queues)).length = _
    rw [List.length_map]
    exact opsFrom_length queues.length 0
  refine ⟨opsFrom_length queues.length 0, ?_, ?_, ?_⟩
  · intro i
    constructor
    · rw [show issuedOps queues = opsFrom 0 queues.length from rfl,
        mem_opsFrom queues.length 0 i OpKind.queue]
      omega
    · rw [show issuedOps queues = opsFrom 0 queues.length from rfl,
        mem_opsFrom queues.length 0 i OpKind.exchange]
      omega
  · show drainLoop (2 * queues.length) arrival = _
    rw [← hlen]
    exact drainLoop_exact arrival
  · intro pre hpre
    exact drainLoop_short _ pre hpre

/-- Two services whose four creation operations all fail. -/
def c9svc1 : AMQPService :=
  { config := { QueueName := "qa", Exchange := { Name := "exa" } },
    createQueueResult := some "e1", createExchangeResult := some "e2",
    channelResult := none, queueBindResult := none }

/-- Second all-failing service for the C9 witness. -/
def c9svc2 : AMQPService :=
  { config := { QueueName := "qb", Exchange := { Name := "exb" } },
    createQueueResult := some "e3", createExchangeResult := some "e4",
    channelResult := none, queueBindResult := none }

/-- An out-of-launch-order arrival of the four failing results. -/
def c9arrival : List (Option String) :=
  [some "e3", some "e1", some "e4", some "e2"]

/-- Witness for C9: two services, all four operations failing, results
arriving out of order. -/
theorem c9_try_create_queues_witness :
    c9arrival.Perm (outcomes [c9svc1, c9svc2])
    ∧ ((issuedOps [c9svc1, c9svc2]).length = 2 * [c9svc1, c9svc2].length
    ∧ (∀ i, (i < [c9svc1, c9svc2].length
          ↔ (i, OpKind.queue) ∈ issuedOps [c9svc1, c9svc2])
        ∧ (i < [c9svc1, c9svc2].length
          ↔ (i, OpKind.exchange) ∈ issuedOps [c9svc1, c9svc2]))
    ∧ TryCreateQueues [c9svc1, c9svc2] c9arrival = some (c9arrival.filterMap id)
    ∧ (∀ pre : List (Option String), pre.length < 2 * [c9svc1, c9svc2].length →
        TryCreateQueues [c9svc1, c9svc2] pre = none)) :=
  ⟨by decide, c9_try_create_queues [c9svc1, c9svc2] c9arrival (by decide)⟩

end Amqp
